import Mathlib

/-!
Shallow embedding of the matrimonial-listing application's profile
lifecycle, photo management, payment verification and public browse
query, together with proofs of the specification's claims about them.

The document store (MongoDB via mongoose) is modelled as lists of
records; `findOne` / `findById` become `List.find?` on the identifier
(or owner) field, and `save` of a fetched-and-mutated document becomes
`updateFirst`, which replaces the first record matching the same
predicate.  HTTP-level outcomes (JSON error responses, redirects with
flash messages) are collapsed into the `Outcome` type of the spec's
error taxonomy.
-/

namespace HijabCollection

/-- Outcome taxonomy of section 7 of the spec: each route handler
returns a success payload or a structured failure. -/
inductive Outcome where
  | success
  | notFound
  | unauthorized
  | conflict
  | preconditionFailed
  | invalidArgument
deriving DecidableEq

/-- Profile status enum of the RishtaProfile schema:
`['draft', 'submitted', 'approved', 'rejected', 'published']`. -/
inductive PStatus where
  | draft
  | submitted
  | approved
  | rejected
  | published
deriving DecidableEq

/-- Payment status enum of the Payment schema:
`['pending', 'completed', 'failed', 'cancelled']`. -/
inductive PayStatus where
  | pending
  | completed
  | failed
  | cancelled
deriving DecidableEq

/-- A photo subdocument of the RishtaProfile schema.  Mongoose gives
every subdocument an `_id`, used by `profile.photos.id(photoId)`;
we model it as `id : Nat`. -/
structure Photo where
  id : Nat
  url : String
  publicId : String
  isPrimary : Bool
deriving DecidableEq

/-- The `personalInfo.location` subdocument. -/
structure Location where
  city : String
  country : String
deriving DecidableEq

/-- The `personalInfo` subdocument of RishtaProfile.  Dates are
modelled as `Nat` timestamps. -/
structure PersonalInfo where
  name : String
  age : Nat
  gender : String
  dateOfBirth : Nat
  height : Option Nat
  maritalStatus : String
  location : Location
  nationality : String
deriving DecidableEq

/-- The `education` subdocument of RishtaProfile. -/
structure Education where
  level : String
  field : Option String
  institution : Option String
deriving DecidableEq

/-- The `occupation` subdocument of RishtaProfile. -/
structure Occupation where
  profession : String
  company : Option String
  income : Option String
deriving DecidableEq

/-- The `familyInfo` subdocument of RishtaProfile. -/
structure FamilyInfo where
  familyType : Option String
  familyStatus : Option String
  siblings : Option Nat
  fatherName : Option String
  motherName : Option String
deriving DecidableEq

/-- The `religiousInfo` subdocument of RishtaProfile. -/
structure ReligiousInfo where
  sect : Option String
  religiousness : Option String
  hijab : Option String
  beard : Option String
deriving DecidableEq

/-- The `preferences.ageRange` subdocument. -/
structure AgeRange where
  min : Option Nat
  max : Option Nat
deriving DecidableEq

/-- The `preferences` subdocument of RishtaProfile. -/
structure Preferences where
  ageRange : AgeRange
  location : List String
  education : List String
  maritalStatus : List String
  religiousness : List String
deriving DecidableEq

/-- The `contactInfo` subdocument of RishtaProfile. -/
structure ContactInfo where
  guardianName : Option String
  guardianPhone : Option String
  guardianRelation : Option String
deriving DecidableEq

/-- A RishtaProfile document (models/RishtaProfile).  `id` is the Mongo
`_id`; `createdAt` comes from the schema's `timestamps: true`. -/
structure Profile where
  id : Nat
  userId : Nat
  personalInfo : PersonalInfo
  education : Education
  occupation : Occupation
  familyInfo : FamilyInfo
  religiousInfo : ReligiousInfo
  photos : List Photo
  preferences : Preferences
  about : Option String
  expectations : Option String
  contactInfo : ContactInfo
  status : PStatus
  published : Bool
  approvedBy : Option Nat
  approvedAt : Option Nat
  rejectionReason : Option String
  views : Nat
  lastViewed : Option Nat
  createdAt : Nat
deriving DecidableEq

/-- A User document.  The User model file is not part of the extracted
sources; its fields are taken from their uses in the routes
(`user.isPaid`, `user.isActive`, `user.role`, `user.profileCompleted`)
and from section 3 of the spec. -/
structure User where
  id : Nat
  name : String
  email : String
  role : String
  isActive : Bool
  isPaid : Bool
  profileCompleted : Bool
deriving DecidableEq

/-- A Payment document (models/Payment). -/
structure Payment where
  id : Nat
  userId : Nat
  amount : Nat
  paymentMethod : String
  paymentType : String
  status : PayStatus
  transactionId : String
  referenceNumber : String
  verifiedBy : Option Nat
  verifiedAt : Option Nat
  verificationNotes : Option String
  createdAt : Nat
deriving DecidableEq

/-- The document store: the three collections the routes touch. -/
structure Db where
  users : List User
  profiles : List Profile
  payments : List Payment
deriving DecidableEq

/-- The content fields of a profile create/edit request body
(`req.body` after validation and parsing). -/
structure ProfileInput where
  personalInfo : PersonalInfo
  education : Education
  occupation : Occupation
  familyInfo : FamilyInfo
  religiousInfo : ReligiousInfo
  preferences : Preferences
  about : Option String
  expectations : Option String
  contactInfo : ContactInfo
deriving DecidableEq

/-- An uploaded image file as multer/cloudinary hands it to the route
(`file.path` is the URL, `file.filename` the public id). -/
structure UploadedFile where
  path : String
  filename : String
deriving DecidableEq

/-- Replaces the first element satisfying `p` by its image under `f`;
models fetching a single document with `findOne`/`findById`, mutating
it, and calling `save`. -/
def updateFirst (p : α → Bool) (f : α → α) : List α → List α
  | [] => []
  | x :: xs => if p x then f x :: xs else x :: updateFirst p f xs

/-- `RishtaProfile.findById(id)`. -/
def findProfile (pid : Nat) (db : Db) : Option Profile :=
  db.profiles.find? (fun q => q.id == pid)

/-- `RishtaProfile.findOne({ userId })`. -/
def findUserProfile (uid : Nat) (db : Db) : Option Profile :=
  db.profiles.find? (fun q => q.userId == uid)

/-- `Payment.findById(id)`. -/
def findPayment (payId : Nat) (db : Db) : Option Payment :=
  db.payments.find? (fun q => q.id == payId)

/-- `User.findById(id)`. -/
def findUser (uid : Nat) (db : Db) : Option User :=
  db.users.find? (fun u => u.id == uid)

/-- Photo list built by the create route's upload loop: photo at index
`i` gets `isPrimary := (i == 0)` ("First photo is primary"); fresh
subdocument ids start at `startId`. -/
def mkCreatePhotos (startId : Nat) : Nat → List UploadedFile → List Photo
  | _, [] => []
  | i, f :: fs =>
      { id := startId + i, url := f.path, publicId := f.filename,
        isPrimary := i == 0 } :: mkCreatePhotos startId (i + 1) fs

/-- Photo list built by the edit route's upload loop: photo at index
`i` gets `isPrimary := existingEmpty && (i == 0)` where `existingEmpty`
is `profile.photos.length === 0` ("Primary if no existing photos"). -/
def mkEditPhotos (startId : Nat) (existingEmpty : Bool) :
    Nat → List UploadedFile → List Photo
  | _, [] => []
  | i, f :: fs =>
      { id := startId + i, url := f.path, publicId := f.filename,
        isPrimary := existingEmpty && i == 0 } ::
        mkEditPhotos startId existingEmpty (i + 1) fs

/-- POST /profiles/create after authentication, payment check and
validation: a duplicate-profile check against `findOne({ userId })`,
then insertion of a new document with `status: 'submitted'` (published
defaults to `false` per the schema), plus `profileCompleted := true`
on the owning user. -/
def createRoute (uid : Nat) (input : ProfileInput) (files : List UploadedFile)
    (freshId phStart now : Nat) (db : Db) : Outcome × Db :=
  match findUserProfile uid db with
  | some _ => (.conflict, db)
  | none =>
      let photos := mkCreatePhotos phStart 0 files
      let p : Profile :=
        { id := freshId, userId := uid,
          personalInfo := input.personalInfo, education := input.education,
          occupation := input.occupation, familyInfo := input.familyInfo,
          religiousInfo := input.religiousInfo, photos := photos,
          preferences := input.preferences, about := input.about,
          expectations := input.expectations, contactInfo := input.contactInfo,
          status := .submitted, published := false,
          approvedBy := none, approvedAt := none, rejectionReason := none,
          views := 0, lastViewed := none, createdAt := now }
      (.success,
        { db with
          profiles := db.profiles ++ [p],
          users := updateFirst (fun u => u.id == uid)
            (fun u => { u with profileCompleted := true }) db.users })

/-- Body of POST /profiles/edit once the profile is fetched: content
fields are overwritten from the request, new photos are appended to
the existing collection (only when there are any, per the
`newPhotos.length > 0` guard), and the status is reset:
`profile.status = 'submitted'; profile.published = false`. -/
def editProfileDoc (input : ProfileInput) (files : List UploadedFile)
    (phStart : Nat) (p : Profile) : Profile :=
  let newPhotos := mkEditPhotos phStart (p.photos.length == 0) 0 files
  { p with
    personalInfo := input.personalInfo,
    education := input.education,
    occupation := input.occupation,
    familyInfo := input.familyInfo,
    religiousInfo := input.religiousInfo,
    photos := if newPhotos.length > 0 then p.photos ++ newPhotos else p.photos,
    preferences := input.preferences,
    about := input.about,
    expectations := input.expectations,
    contactInfo := input.contactInfo,
    status := .submitted,
    published := false }

/-- POST /profiles/edit: fetch by owner (`findOne({ userId })`), fail
when absent, otherwise update and save. -/
def editRoute (uid : Nat) (input : ProfileInput) (files : List UploadedFile)
    (phStart : Nat) (db : Db) : Outcome × Db :=
  match findUserProfile uid db with
  | none => (.notFound, db)
  | some _ =>
      (.success,
        { db with
          profiles := updateFirst (fun q => q.userId == uid)
            (editProfileDoc input files phStart) db.profiles })

/-- Body of POST /profiles/:id/review once the profile is fetched:
`approve` sets status/published/approvedBy/approvedAt and clears the
rejection reason; `reject` sets status/published/rejectionReason and
the same reviewer metadata; any other action falls through both
branches and leaves the document untouched. -/
def reviewProfileDoc (adminId now : Nat) (action : String)
    (rejectionReason : Option String) (p : Profile) : Profile :=
  if action = "approve" then
    { p with status := .approved, published := true,
             approvedBy := some adminId, approvedAt := some now,
             rejectionReason := none }
  else if action = "reject" then
    { p with status := .rejected, published := false,
             rejectionReason := rejectionReason,
             approvedBy := some adminId, approvedAt := some now }
  else p

/-- POST /profiles/:id/review (admin): 404 when the profile is absent,
otherwise apply `reviewProfileDoc`, save, and respond with success —
there is no check of the prior status and no validation of `action`. -/
def reviewRoute (adminId now pid : Nat) (action : String)
    (rejectionReason : Option String) (db : Db) : Outcome × Db :=
  match findProfile pid db with
  | none => (.notFound, db)
  | some _ =>
      (.success,
        { db with
          profiles := updateFirst (fun q => q.id == pid)
            (reviewProfileDoc adminId now action rejectionReason) db.profiles })

/-- POST /profiles/:id/publish (admin): 404 when absent, 400 ("Only
approved profiles can be published") when `status !== 'approved'`,
otherwise `profile.published = !profile.published` and save. -/
def togglePublishRoute (pid : Nat) (db : Db) : Outcome × Db :=
  match findProfile pid db with
  | none => (.notFound, db)
  | some p =>
      if p.status ≠ PStatus.approved then (.preconditionFailed, db)
      else
        (.success,
          { db with
            profiles := updateFirst (fun q => q.id == pid)
              (fun q => { q with published := !q.published }) db.profiles })

/-- Body of DELETE /photo/:photoId once the owner's profile is fetched:
404 when `photos.id(photoId)` finds nothing, otherwise
`photos.pull(photoId)` (remove every entry with that subdocument id)
and save.  The Cloudinary delete is external and not modelled. -/
def deletePhoto (photoId : Nat) (p : Profile) : Outcome × Profile :=
  match p.photos.find? (fun ph => ph.id == photoId) with
  | none => (.notFound, p)
  | some _ =>
      (.success, { p with photos := p.photos.filter (fun ph => !(ph.id == photoId)) })

/-- Sets `isPrimary := true` on the first photo carrying the given
subdocument id, as `photos.id(photoId)` followed by the conditional
assignment does; a list without that id is returned unchanged. -/
def setFirstPrimary (photoId : Nat) : List Photo → List Photo
  | [] => []
  | ph :: rest =>
      if ph.id == photoId then { ph with isPrimary := true } :: rest
      else ph :: setFirstPrimary photoId rest

/-- Body of PUT /photo/:photoId/primary once the owner's profile is
fetched: every photo's `isPrimary` is reset to `false`, then the
target — if `photos.id(photoId)` finds it — is set primary; the route
saves and responds with success in either case. -/
def setPrimaryPhoto (photoId : Nat) (p : Profile) : Outcome × Profile :=
  let cleared := p.photos.map (fun ph => { ph with isPrimary := false })
  (.success, { p with photos := setFirstPrimary photoId cleared })

/-- Requested verification status string → stored status.  The route
accepts exactly `['completed', 'failed', 'cancelled']` and answers 400
"Invalid status" for anything else. -/
def parseVerifyStatus (s : String) : Option PayStatus :=
  if s = "completed" then some .completed
  else if s = "failed" then some .failed
  else if s = "cancelled" then some .cancelled
  else none

/-- POST /payments/admin/verify/:id (admin): 404 when the payment is
absent, 400 when the requested status is not in the allowed list,
otherwise set status/verifiedBy/verifiedAt/verificationNotes, and —
only when the new status is `completed` — mark the owning user
(`User.findById(payment.userId)`, if present) as paid.  There is no
check that the payment was still `pending`. -/
def verifyPayment (adminId now payId : Nat) (s : String)
    (verificationNotes : Option String) (db : Db) : Outcome × Db :=
  match findPayment payId db with
  | none => (.notFound, db)
  | some pay =>
      match parseVerifyStatus s with
      | none => (.invalidArgument, db)
      | some st =>
          let users :=
            if st = PayStatus.completed then
              updateFirst (fun u => u.id == pay.userId)
                (fun u => { u with isPaid := true }) db.users
            else db.users
          (.success,
            { db with
              users := users,
              payments := updateFirst (fun q => q.id == payId)
                (fun q => { q with status := st, verifiedBy := some adminId,
                                   verifiedAt := some now,
                                   verificationNotes := verificationNotes })
                db.payments })

/-- POST /payments/cancel/:id: `findOne({ _id, userId, status:
'pending' })`, 404 ("Payment not found or cannot be cancelled") when
nothing matches, otherwise set status to `cancelled` and save. -/
def cancelPayment (uid payId : Nat) (db : Db) : Outcome × Db :=
  match db.payments.find? (fun q =>
      q.id == payId && q.userId == uid && q.status == PayStatus.pending) with
  | none => (.notFound, db)
  | some _ =>
      (.success,
        { db with
          payments := updateFirst (fun q =>
              q.id == payId && q.userId == uid && q.status == PayStatus.pending)
            (fun q => { q with status := PayStatus.cancelled }) db.payments })

/-- Checks that the pattern occupies the front of the text, character
by character. -/
def strMatchFrom : List Char → List Char → Bool
  | [], _ => true
  | _ :: _, [] => false
  | a :: as, b :: bs => a == b && strMatchFrom as bs

/-- Checks that the pattern occurs contiguously somewhere in the
text. -/
def strHasSub (needle : List Char) : List Char → Bool
  | [] => needle.isEmpty
  | b :: bs => strMatchFrom needle (b :: bs) || strHasSub needle bs

/-- City filter of the browse route, `new RegExp(req.query.city, 'i')`:
for a metacharacter-free query this is a case-insensitive substring
test, which is what we model (regex metacharacters are out of scope of
the embedding). -/
def cityMatch (pat s : String) : Bool :=
  strHasSub pat.toLower.data s.toLower.data

/-- The caller-supplied filters of GET /browse; a missing query
parameter is `none`. -/
structure BrowseQuery where
  gender : Option String
  city : Option String
  minAge : Option Nat
  maxAge : Option Nat
deriving DecidableEq

/-- The Mongo filter object the browse route builds: always
`published: true, status: 'approved'`, plus gender equality, the
case-insensitive city regex, and `$gte`/`$lte` age bounds when
supplied. -/
def browseFilter (q : BrowseQuery) (p : Profile) : Bool :=
  p.published && p.status == PStatus.approved
  && (match q.gender with
      | none => true
      | some g => p.personalInfo.gender == g)
  && (match q.city with
      | none => true
      | some c => cityMatch c p.personalInfo.location.city)
  && (match q.minAge with
      | none => true
      | some a => a ≤ p.personalInfo.age)
  && (match q.maxAge with
      | none => true
      | some b => p.personalInfo.age ≤ b)

/-- `RishtaProfile.find(filter).sort({ createdAt: -1 })` of the browse
route: the matching documents, newest creation first. -/
def browseProfiles (q : BrowseQuery) (db : Db) : List Profile :=
  List.mergeSort (db.profiles.filter (browseFilter q))
    (fun a b => decide (b.createdAt ≤ a.createdAt))

/-- GET /browse with a 1-based page number: the route appends
`.skip((page - 1) * 12).limit(12)` to the sorted query. -/
def browsePage (page : Nat) (q : BrowseQuery) (db : Db) : List Profile :=
  ((browseProfiles q db).drop ((page - 1) * 12)).take 12

/-- The invariant of section 8 of the spec: at most one photo of a
collection carries `isPrimary = true`. -/
def atMostOnePrimary (l : List Photo) : Prop :=
  l.countP (fun ph => ph.isPrimary) ≤ 1

/-- The photo-mutating operations an owner can apply to an existing
profile (the create route is covered separately since it builds the
initial collection). -/
inductive PhotoOp where
  | editOp (input : ProfileInput) (files : List UploadedFile) (phStart : Nat)
  | removeOp (photoId : Nat)
  | setPrimaryOp (photoId : Nat)

/-- Applies one photo-mutating operation to the profile document,
keeping the updated document and discarding the HTTP outcome. -/
def applyPhotoOp (op : PhotoOp) (p : Profile) : Profile :=
  match op with
  | .editOp input files phStart => editProfileDoc input files phStart p
  | .removeOp photoId => (deletePhoto photoId p).2
  | .setPrimaryOp photoId => (setPrimaryPhoto photoId p).2

/-- Applies a sequence of photo-mutating operations in order. -/
def applyPhotoOps (ops : List PhotoOp) (p : Profile) : Profile :=
  ops.foldl (fun q op => applyPhotoOp op q) p

/-! ### Generic lemmas about the store model -/

theorem find?_updateFirst {α} (p : α → Bool) (f : α → α)
    (hf : ∀ x, p x = true → p (f x) = true) (l : List α) :
    List.find? p (updateFirst p f l) = (List.find? p l).map f := by
  induction l with
  | nil => rfl
  | cons x xs ih =>
      by_cases hx : p x = true
      · simp only [updateFirst, if_pos hx]
        rw [List.find?_cons_of_pos _ (hf x hx), List.find?_cons_of_pos _ hx]
        rfl
      · simp only [updateFirst, if_neg hx]
        rw [List.find?_cons_of_neg _ hx, List.find?_cons_of_neg _ hx, ih]

theorem updateFirst_eq_self {α} (p : α → Bool) (f : α → α)
    (hf : ∀ x, p x = true → f x = x) (l : List α) :
    updateFirst p f l = l := by
  induction l with
  | nil => rfl
  | cons x xs ih =>
      by_cases hx : p x = true
      · simp only [updateFirst, if_pos hx, hf x hx]
      · simp only [updateFirst, if_neg hx, ih]

theorem mem_updateFirst {α} {p : α → Bool} {f : α → α} {l : List α} {y : α}
    (hy : y ∈ updateFirst p f l) :
    y ∈ l ∨ ∃ x, x ∈ l ∧ p x = true ∧ y = f x := by
  induction l with
  | nil => simp [updateFirst] at hy
  | cons x xs ih =>
      by_cases hx : p x = true
      · simp only [updateFirst, if_pos hx] at hy
        rcases List.mem_cons.mp hy with h1 | h2
        · exact Or.inr ⟨x, List.mem_cons_self x xs, hx, h1⟩
        · exact Or.inl (List.mem_cons_of_mem _ h2)
      · simp only [updateFirst, if_neg hx] at hy
        rcases List.mem_cons.mp hy with h1 | h2
        · exact Or.inl (h1 ▸ List.mem_cons_self x xs)
        · rcases ih h2 with h | ⟨z, hz, hpz, hyz⟩
          · exact Or.inl (List.mem_cons_of_mem _ h)
          · exact Or.inr ⟨z, List.mem_cons_of_mem _ hz, hpz, hyz⟩

theorem countP_filter_le {α} (pr f : α → Bool) (l : List α) :
    (l.filter f).countP pr ≤ l.countP pr := by
  induction l with
  | nil => simp
  | cons x xs ih =>
      by_cases hx : f x = true
      · rw [List.filter_cons_of_pos hx, List.countP_cons, List.countP_cons]
        by_cases hpx : pr x = true <;> simp [hpx] <;> omega
      · rw [List.filter_cons_of_neg hx, List.countP_cons]
        by_cases hpx : pr x = true <;> simp [hpx] <;> omega

/-! ### Lemmas about photo-collection primaries -/

theorem countP_mkCreatePhotos_pos (startId i : Nat) (files : List UploadedFile)
    (hi : 0 < i) :
    (mkCreatePhotos startId i files).countP (fun ph => ph.isPrimary) = 0 := by
  induction files generalizing i with
  | nil => rfl
  | cons f fs ih =>
      have hne : (i == 0) = false := by
        simp only [beq_eq_false_iff_ne]
        omega
      rw [mkCreatePhotos, List.countP_cons]
      simp only [hne, if_neg]
      rw [ih (i + 1) (by omega)]
      simp

theorem countP_mkCreatePhotos (startId : Nat) (files : List UploadedFile) :
    (mkCreatePhotos startId 0 files).countP (fun ph => ph.isPrimary) ≤ 1 := by
  cases files with
  | nil => simp [mkCreatePhotos]
  | cons f fs =>
      rw [mkCreatePhotos, List.countP_cons,
        countP_mkCreatePhotos_pos startId 1 fs (by omega)]
      simp

theorem countP_mkEditPhotos_false (startId i : Nat) (files : List UploadedFile) :
    (mkEditPhotos startId false i files).countP (fun ph => ph.isPrimary) = 0 := by
  induction files generalizing i with
  | nil => rfl
  | cons f fs ih =>
      rw [mkEditPhotos, List.countP_cons, ih (i + 1)]
      simp

theorem countP_mkEditPhotos_true_pos (startId i : Nat) (files : List UploadedFile)
    (hi : 0 < i) :
    (mkEditPhotos startId true i files).countP (fun ph => ph.isPrimary) = 0 := by
  induction files generalizing i with
  | nil => rfl
  | cons f fs ih =>
      have hne : (i == 0) = false := by
        simp only [beq_eq_false_iff_ne]
        omega
      rw [mkEditPhotos, List.countP_cons]
      simp only [hne, Bool.and_false, if_neg]
      rw [ih (i + 1) (by omega)]
      simp

theorem countP_mkEditPhotos_true (startId : Nat) (files : List UploadedFile) :
    (mkEditPhotos startId true 0 files).countP (fun ph => ph.isPrimary) ≤ 1 := by
  cases files with
  | nil => simp [mkEditPhotos]
  | cons f fs =>
      rw [mkEditPhotos, List.countP_cons,
        countP_mkEditPhotos_true_pos startId 1 fs (by omega)]
      simp

theorem editProfileDoc_photos (input : ProfileInput) (files : List UploadedFile)
    (phStart : Nat) (p : Profile) :
    (editProfileDoc input files phStart p).photos =
      p.photos ++ mkEditPhotos phStart (p.photos.length == 0) 0 files := by
  cases files with
  | nil => simp [editProfileDoc, mkEditPhotos]
  | cons f fs => simp [editProfileDoc, mkEditPhotos]

theorem countP_clearPrimary (l : List Photo) :
    (l.map (fun ph => { ph with isPrimary := false })).countP
      (fun ph => ph.isPrimary) = 0 := by
  simp [List.countP_map]

theorem setFirstPrimary_of_absent (photoId : Nat) (l : List Photo)
    (h : l.any (fun ph => ph.id == photoId) = false) :
    setFirstPrimary photoId l = l := by
  induction l with
  | nil => rfl
  | cons ph rest ih =>
      simp only [List.any_cons, Bool.or_eq_false_iff] at h
      rw [setFirstPrimary, if_neg (by simp [h.1]), ih h.2]

theorem countP_setFirstPrimary_le (photoId : Nat) (l : List Photo) :
    (setFirstPrimary photoId l).countP (fun ph => ph.isPrimary) ≤
      l.countP (fun ph => ph.isPrimary) + 1 := by
  induction l with
  | nil => simp [setFirstPrimary]
  | cons ph rest ih =>
      by_cases hid : (ph.id == photoId) = true
      · rw [setFirstPrimary, if_pos hid, List.countP_cons, List.countP_cons]
        by_cases hp : ph.isPrimary = true <;> simp [hp]
      · rw [setFirstPrimary, if_neg hid, List.countP_cons, List.countP_cons]
        by_cases hp : ph.isPrimary = true <;> simp [hp]
        all_goals omega

theorem setFirstPrimary_of_present (photoId : Nat) (l : List Photo)
    (hmem : l.any (fun ph => ph.id == photoId) = true)
    (hzero : l.countP (fun ph => ph.isPrimary) = 0) :
    (setFirstPrimary photoId l).countP (fun ph => ph.isPrimary) = 1 ∧
    ∀ ph ∈ setFirstPrimary photoId l, ph.isPrimary = true → ph.id = photoId := by
  induction l with
  | nil => simp at hmem
  | cons ph rest ih =>
      rw [List.countP_cons] at hzero
      have hph : ph.isPrimary = false := by
        by_cases hp : ph.isPrimary = true
        · simp [hp] at hzero
        · simpa using hp
      have hrest : rest.countP (fun q => q.isPrimary) = 0 := by
        simpa [hph] using hzero
      by_cases hid : (ph.id == photoId) = true
      · rw [setFirstPrimary, if_pos hid]
        constructor
        · rw [List.countP_cons, hrest]
          simp
        · intro q hq hqp
          rcases List.mem_cons.mp hq with h1 | h2
          · have : ph.id = photoId := by simpa [beq_iff_eq] using hid
            rw [h1]
            exact this
          · have := (List.countP_eq_zero.mp hrest) q h2
            simp [hqp] at this
      · rw [setFirstPrimary, if_neg hid]
        simp only [List.any_cons, hid, Bool.false_or] at hmem
        rcases ih hmem hrest with ⟨ih1, ih2⟩
        constructor
        · rw [List.countP_cons, ih1, hph]
          simp
        · intro q hq hqp
          rcases List.mem_cons.mp hq with h1 | h2
          · rw [h1] at hqp
            rw [hph] at hqp
            exact absurd hqp (by simp)
          · exact ih2 q h2 hqp

/-! ### Lemmas about payment verification -/

theorem parseVerifyStatus_ne_pending (s : String) (st : PayStatus)
    (h : parseVerifyStatus s = some st) : ¬ st = PayStatus.pending := by
  unfold parseVerifyStatus at h
  split at h
  · simp at h
    simp [← h]
  · split at h
    · simp at h
      simp [← h]
    · split at h
      · simp at h
        simp [← h]
      · simp at h

/-! ### Concrete sample data, used by the witness and counterexample
theorems -/

/-- A sample validated request body. -/
def sampleInput : ProfileInput :=
  { personalInfo :=
      { name := "Aisha", age := 25, gender := "female", dateOfBirth := 90,
        height := some 160, maritalStatus := "never-married",
        location := { city := "Lahore", country := "Pakistan" },
        nationality := "Pakistani" },
    education := { level := "bachelor", field := none, institution := none },
    occupation := { profession := "teacher", company := none, income := none },
    familyInfo := { familyType := none, familyStatus := none, siblings := none,
                    fatherName := none, motherName := none },
    religiousInfo := { sect := none, religiousness := none,
                       hijab := none, beard := none },
    preferences := { ageRange := { min := none, max := none }, location := [],
                     education := [], maritalStatus := [], religiousness := [] },
    about := none, expectations := none,
    contactInfo := { guardianName := none, guardianPhone := none,
                     guardianRelation := none } }

/-- A sample profile document in the `submitted` state. -/
def sampleProfile : Profile :=
  { id := 1, userId := 10,
    personalInfo := sampleInput.personalInfo,
    education := sampleInput.education,
    occupation := sampleInput.occupation,
    familyInfo := sampleInput.familyInfo,
    religiousInfo := sampleInput.religiousInfo,
    photos := [],
    preferences := sampleInput.preferences,
    about := none, expectations := none,
    contactInfo := sampleInput.contactInfo,
    status := .submitted, published := false,
    approvedBy := none, approvedAt := none, rejectionReason := none,
    views := 0, lastViewed := none, createdAt := 100 }

/-- A sample user owning `sampleProfile`. -/
def sampleUser : User :=
  { id := 10, name := "Aisha", email := "a@example.com", role := "user",
    isActive := true, isPaid := true, profileCompleted := true }

/-- A store holding one submitted profile and its owner. -/
def sampleDb : Db :=
  { users := [sampleUser], profiles := [sampleProfile], payments := [] }

/-- The sample profile after administrator approval. -/
def approvedProfile : Profile :=
  { sampleProfile with
    status := .approved, published := true,
    approvedBy := some 7, approvedAt := some 50 }

/-- A store holding one approved profile. -/
def approvedDb : Db :=
  { users := [sampleUser], profiles := [approvedProfile], payments := [] }

/-- The sample profile with a single primary photo. -/
def photoProfile : Profile :=
  { sampleProfile with
    photos := [{ id := 1, url := "u1", publicId := "pub1", isPrimary := true }] }

/-- A payment already in the terminal state `completed`. -/
def termPayment : Payment :=
  { id := 3, userId := 10, amount := 1000, paymentMethod := "easypaisa",
    paymentType := "registration", status := .completed,
    transactionId := "TXN1", referenceNumber := "REF1",
    verifiedBy := none, verifiedAt := none, verificationNotes := none,
    createdAt := 40 }

/-- A payment still `pending`. -/
def pendingPayment : Payment :=
  { id := 2, userId := 10, amount := 1000, paymentMethod := "jazzcash",
    paymentType := "registration", status := .pending,
    transactionId := "TXN2", referenceNumber := "REF2",
    verifiedBy := none, verifiedAt := none, verificationNotes := none,
    createdAt := 41 }

/-- A store holding a completed and a pending payment of the sample
user. -/
def payDb : Db :=
  { users := [{ sampleUser with isPaid := false }], profiles := [],
    payments := [termPayment, pendingPayment] }

/-! ### The claims -/

/-- C1.  For every existing profile and administrator caller,
`reviewProfile` with action `approve` sets status `approved`,
`published = true`, records reviewer and timestamp and clears the
rejection reason; with action `reject` and reason `r` it sets status
`rejected`, `published = false`, rejection reason `r`, and records
reviewer and timestamp — and in both cases the operation is applied
(the hypotheses place no constraint on the profile's prior status). -/
theorem review_applies_approve_and_reject (adminId now pid : Nat) (r : String)
    (db : Db) (p : Profile) (hp : findProfile pid db = some p) :
    (reviewRoute adminId now pid "approve" none db).1 = Outcome.success ∧
    findProfile pid (reviewRoute adminId now pid "approve" none db).2 =
      some { p with
             status := .approved, published := true,
             approvedBy := some adminId, approvedAt := some now,
             rejectionReason := none } ∧
    (reviewRoute adminId now pid "reject" (some r) db).1 = Outcome.success ∧
    findProfile pid (reviewRoute adminId now pid "reject" (some r) db).2 =
      some { p with
             status := .rejected, published := false,
             rejectionReason := some r,
             approvedBy := some adminId, approvedAt := some now } := by
  have happr : ∀ q : Profile,
      reviewProfileDoc adminId now "approve" none q =
        { q with
          status := .approved, published := true,
          approvedBy := some adminId, approvedAt := some now,
          rejectionReason := none } := by
    intro q
    simp [reviewProfileDoc]
  have hrej : ∀ q : Profile,
      reviewProfileDoc adminId now "reject" (some r) q =
        { q with
          status := .rejected, published := false,
          rejectionReason := some r,
          approvedBy := some adminId, approvedAt := some now } := by
    intro q
    simp [reviewProfileDoc]
  have hid : ∀ (a : String) (rr : Option String) (q : Profile),
      (q.id == pid) = true →
      ((reviewProfileDoc adminId now a rr q).id == pid) = true := by
    intro a rr q hq
    unfold reviewProfileDoc
    split
    · exact hq
    · split
      · exact hq
      · exact hq
  refine ⟨?_, ?_, ?_, ?_⟩
  · unfold reviewRoute
    rw [hp]
  · unfold reviewRoute findProfile
    unfold findProfile at hp
    rw [hp]
    simp only
    rw [find?_updateFirst _ _ (hid "approve" none) db.profiles, hp]
    simp [happr]
  · unfold reviewRoute
    rw [hp]
  · unfold reviewRoute findProfile
    unfold findProfile at hp
    rw [hp]
    simp only
    rw [find?_updateFirst _ _ (hid "reject" (some r)) db.profiles, hp]
    simp [hrej]

/-- Witness for C1 at a concrete store: approving the sample submitted
profile answers success. -/
theorem review_applies_approve_and_reject_witness :
    (reviewRoute 7 50 1 "approve" none sampleDb).1 = Outcome.success :=
  (review_applies_approve_and_reject 7 50 1 "weak photos" sampleDb sampleProfile
    (by decide)).1

/-- C10 (implicit).  Calling the review operation on an existing
profile with an action that is neither `approve` nor `reject` returns
a success response and leaves every field of the profile — indeed the
whole store — unchanged: no validation error is raised for the
unrecognized action. -/
theorem review_unknown_action_noop (adminId now pid : Nat) (action : String)
    (reason : Option String) (db : Db) (p : Profile)
    (hp : findProfile pid db = some p)
    (ha : ¬ action = "approve") (hr : ¬ action = "reject") :
    reviewRoute adminId now pid action reason db = (Outcome.success, db) := by
  have hdoc : ∀ q : Profile,
      (fun x => x.id == pid) q = true →
      reviewProfileDoc adminId now action reason q = q := by
    intro q _
    simp [reviewProfileDoc, ha, hr]
  unfold reviewRoute
  rw [hp]
  simp only
  rw [updateFirst_eq_self _ _ hdoc db.profiles]

/-- Witness for C10: reviewing the sample profile with the action
string "publish" succeeds and changes nothing. -/
theorem review_unknown_action_noop_witness :
    reviewRoute 7 50 1 "publish" none sampleDb = (Outcome.success, sampleDb) :=
  review_unknown_action_noop 7 50 1 "publish" none sampleDb sampleProfile
    (by decide) (by decide) (by decide)

/-- C3.  The publish toggle on an existing profile whose status is not
`approved` fails with a precondition_failed outcome and leaves the
store unchanged; on an `approved` profile it answers success and
negates exactly the `published` flag of that profile (the record
update touches no other field, in particular not the status). -/
theorem togglePublish_claim (pid : Nat) (db : Db) (p : Profile)
    (hp : findProfile pid db = some p) :
    (¬ p.status = PStatus.approved →
        togglePublishRoute pid db = (Outcome.preconditionFailed, db)) ∧
    (p.status = PStatus.approved →
        (togglePublishRoute pid db).1 = Outcome.success ∧
        findProfile pid (togglePublishRoute pid db).2 =
          some { p with published := !p.published }) := by
  constructor
  · intro hs
    unfold togglePublishRoute
    rw [hp]
    simp [hs]
  · intro hs
    have hid : ∀ q : Profile, (q.id == pid) = true →
        (({ q with published := !q.published } : Profile).id == pid) = true := by
      intro q hq
      exact hq
    constructor
    · unfold togglePublishRoute
      rw [hp]
      simp [hs]
    · unfold togglePublishRoute
      rw [hp]
      simp only [hs, ne_eq, not_true_eq_false, if_neg, ite_false]
      unfold findProfile
      unfold findProfile at hp
      simp only
      rw [find?_updateFirst _ _ hid db.profiles, hp]
      simp [hs]

/-- Witness for C3: the toggle fails on the submitted sample profile
and succeeds on the approved one. -/
theorem togglePublish_claim_witness :
    togglePublishRoute 1 sampleDb = (Outcome.preconditionFailed, sampleDb) ∧
    (togglePublishRoute 1 approvedDb).1 = Outcome.success :=
  ⟨(togglePublish_claim 1 sampleDb sampleProfile (by decide)).1 (by decide),
   ((togglePublish_claim 1 approvedDb approvedProfile (by decide)).2
      (by decide)).1⟩

/-- C5.  For every user who already has a profile, the create route
fails with a conflict outcome and returns the store unchanged: no
second profile document is created and the existing one is left as it
was. -/
theorem create_duplicate_conflict (uid freshId phStart now : Nat)
    (input : ProfileInput) (files : List UploadedFile) (db : Db) (p : Profile)
    (hp : findUserProfile uid db = some p) :
    createRoute uid input files freshId phStart now db = (Outcome.conflict, db) := by
  unfold createRoute
  rw [hp]

/-- Witness for C5: creating a second profile for the sample user
yields conflict and the untouched store. -/
theorem create_duplicate_conflict_witness :
    createRoute 10 sampleInput [] 2 5 101 sampleDb = (Outcome.conflict, sampleDb) :=
  create_duplicate_conflict 10 2 5 101 sampleInput [] sampleDb sampleProfile
    (by decide)

/-- C4.  For every existing profile, a successful owner edit answers
success, stores exactly `editProfileDoc` applied to the old document,
and that document has status `submitted` and `published = false`
regardless of the prior status, carries the input's content fields,
and keeps the existing photo collection as a prefix with the newly
uploaded photos appended after it. -/
theorem edit_resets_and_appends (uid phStart : Nat) (input : ProfileInput)
    (files : List UploadedFile) (db : Db) (p : Profile)
    (hp : findUserProfile uid db = some p) :
    (editRoute uid input files phStart db).1 = Outcome.success ∧
    findUserProfile uid (editRoute uid input files phStart db).2 =
      some (editProfileDoc input files phStart p) ∧
    (editProfileDoc input files phStart p).status = PStatus.submitted ∧
    (editProfileDoc input files phStart p).published = false ∧
    (editProfileDoc input files phStart p).photos =
      p.photos ++ mkEditPhotos phStart (p.photos.length == 0) 0 files ∧
    (editProfileDoc input files phStart p).personalInfo = input.personalInfo ∧
    (editProfileDoc input files phStart p).education = input.education ∧
    (editProfileDoc input files phStart p).occupation = input.occupation ∧
    (editProfileDoc input files phStart p).familyInfo = input.familyInfo ∧
    (editProfileDoc input files phStart p).religiousInfo = input.religiousInfo ∧
    (editProfileDoc input files phStart p).preferences = input.preferences ∧
    (editProfileDoc input files phStart p).about = input.about ∧
    (editProfileDoc input files phStart p).expectations = input.expectations ∧
    (editProfileDoc input files phStart p).contactInfo = input.contactInfo := by
  have hid : ∀ q : Profile, (q.userId == uid) = true →
      ((editProfileDoc input files phStart q).userId == uid) = true := by
    intro q hq
    exact hq
  refine ⟨?_, ?_, rfl, rfl, editProfileDoc_photos input files phStart p,
    rfl, rfl, rfl, rfl, rfl, rfl, rfl, rfl, rfl⟩
  · unfold editRoute
    rw [hp]
  · unfold editRoute findUserProfile
    unfold findUserProfile at hp
    rw [hp]
    simp only
    rw [find?_updateFirst _ _ hid db.profiles, hp]
    rfl

/-- Witness for C4: an edit of the approved sample profile with one
new upload succeeds. -/
theorem edit_resets_and_appends_witness :
    (editRoute 10 sampleInput [{ path := "u2", filename := "pub2" }] 9
      approvedDb).1 = Outcome.success :=
  (edit_resets_and_appends 10 9 sampleInput
    [{ path := "u2", filename := "pub2" }] approvedDb approvedProfile
    (by decide)).1

theorem applyPhotoOp_preserves (op : PhotoOp) (p : Profile)
    (h : atMostOnePrimary p.photos) :
    atMostOnePrimary (applyPhotoOp op p).photos := by
  cases op with
  | editOp input files phStart =>
      simp only [applyPhotoOp]
      unfold atMostOnePrimary at h ⊢
      rw [editProfileDoc_photos, List.countP_append]
      cases hp : p.photos with
      | nil =>
          simp only [List.length_nil, beq_self_eq_true]
          simpa using countP_mkEditPhotos_true phStart files
      | cons ph rest =>
          rw [hp] at h
          have hlen : ((ph :: rest).length == 0) = false := by simp
          rw [hlen, countP_mkEditPhotos_false]
          simpa using h
  | removeOp photoId =>
      simp only [applyPhotoOp]
      unfold deletePhoto
      cases hf : p.photos.find? (fun ph => ph.id == photoId) with
      | none => exact h
      | some ph =>
          unfold atMostOnePrimary at h ⊢
          exact le_trans (countP_filter_le _ _ _) h
  | setPrimaryOp photoId =>
      simp only [applyPhotoOp]
      unfold setPrimaryPhoto
      unfold atMostOnePrimary
      calc (setFirstPrimary photoId
              (p.photos.map (fun ph => { ph with isPrimary := false }))).countP
            (fun ph => ph.isPrimary)
          ≤ (p.photos.map (fun ph => { ph with isPrimary := false })).countP
              (fun ph => ph.isPrimary) + 1 := countP_setFirstPrimary_le _ _
        _ = 1 := by rw [countP_clearPrimary]

theorem applyPhotoOps_preserves (ops : List PhotoOp) (p : Profile)
    (h : atMostOnePrimary p.photos) :
    atMostOnePrimary (applyPhotoOps ops p).photos := by
  induction ops generalizing p with
  | nil => exact h
  | cons op rest ih =>
      have hstep : applyPhotoOps (op :: rest) p =
          applyPhotoOps rest (applyPhotoOp op p) := by
        simp [applyPhotoOps]
      rw [hstep]
      exact ih (applyPhotoOp op p) (applyPhotoOp_preserves op p h)

/-- C2.  The photo collection built at profile creation has at most
one primary photo, and every photo-mutating operation (owner edit
appending uploads, photo removal, set-primary) preserves that bound,
so after any sequence of such operations — hence after each single
operation, since every prefix is such a sequence — at most one photo
has `isPrimary = true`. -/
theorem photo_primary_invariant :
    (∀ phStart files, atMostOnePrimary (mkCreatePhotos phStart 0 files)) ∧
    (∀ p, atMostOnePrimary p.photos →
      ∀ ops, atMostOnePrimary (applyPhotoOps ops p).photos) := by
  constructor
  · intro phStart files
    exact countP_mkCreatePhotos phStart files
  · intro p h ops
    exact applyPhotoOps_preserves ops p h

/-- Witness for C2: a concrete sequence of a set-primary with an
absent id, a removal and an edit with one upload keeps the bound. -/
theorem photo_primary_invariant_witness :
    atMostOnePrimary (applyPhotoOps
      [PhotoOp.setPrimaryOp 3, PhotoOp.removeOp 1,
       PhotoOp.editOp sampleInput [{ path := "u2", filename := "pub2" }] 9]
      photoProfile).photos :=
  photo_primary_invariant.2 photoProfile
    (by decide : photoProfile.photos.countP (fun ph => ph.isPrimary) ≤ 1)
    [PhotoOp.setPrimaryOp 3, PhotoOp.removeOp 1,
     PhotoOp.editOp sampleInput [{ path := "u2", filename := "pub2" }] 9]

/-- C7.  On an existing payment, verification with a status string
outside `completed|failed|cancelled` is rejected as invalid argument
with the store unchanged; with `completed` it records status, verifier,
timestamp and notes on the payment and sets the owning user's paid
flag to true; with `failed` or `cancelled` it records the same
metadata with that status and leaves the users collection — hence
every paid flag — untouched. -/
theorem verifyPayment_claim (adminId now payId : Nat) (s : String)
    (notes : Option String) (db : Db) (pay : Payment)
    (hp : findPayment payId db = some pay) :
    (¬ s = "completed" → ¬ s = "failed" → ¬ s = "cancelled" →
        verifyPayment adminId now payId s notes db = (Outcome.invalidArgument, db)) ∧
    (s = "completed" →
        (verifyPayment adminId now payId s notes db).1 = Outcome.success ∧
        findPayment payId (verifyPayment adminId now payId s notes db).2 =
          some { pay with
                 status := PayStatus.completed, verifiedBy := some adminId,
                 verifiedAt := some now, verificationNotes := notes } ∧
        (∀ u, findUser pay.userId db = some u →
          findUser pay.userId (verifyPayment adminId now payId s notes db).2 =
            some { u with isPaid := true })) ∧
    (s = "failed" →
        (verifyPayment adminId now payId s notes db).1 = Outcome.success ∧
        findPayment payId (verifyPayment adminId now payId s notes db).2 =
          some { pay with
                 status := PayStatus.failed, verifiedBy := some adminId,
                 verifiedAt := some now, verificationNotes := notes } ∧
        (verifyPayment adminId now payId s notes db).2.users = db.users) ∧
    (s = "cancelled" →
        (verifyPayment adminId now payId s notes db).1 = Outcome.success ∧
        findPayment payId (verifyPayment adminId now payId s notes db).2 =
          some { pay with
                 status := PayStatus.cancelled, verifiedBy := some adminId,
                 verifiedAt := some now, verificationNotes := notes } ∧
        (verifyPayment adminId now payId s notes db).2.users = db.users) := by
  have hid : ∀ (st : PayStatus) (q : Payment), (q.id == payId) = true →
      (({ q with
          status := st, verifiedBy := some adminId, verifiedAt := some now,
          verificationNotes := notes } : Payment).id == payId) = true := by
    intro st q hq
    exact hq
  have huid : ∀ u : User, (u.id == pay.userId) = true →
      (({ u with isPaid := true } : User).id == pay.userId) = true := by
    intro u hu
    exact hu
  refine ⟨?_, ?_, ?_, ?_⟩
  · intro h1 h2 h3
    have hparse : parseVerifyStatus s = none := by
      unfold parseVerifyStatus
      rw [if_neg h1, if_neg h2, if_neg h3]
    unfold verifyPayment
    rw [hp, hparse]
  · intro hs
    subst hs
    have hparse : parseVerifyStatus "completed" = some PayStatus.completed := by
      decide
    have hres : verifyPayment adminId now payId "completed" notes db =
        (Outcome.success,
          { db with
            users := updateFirst (fun u => u.id == pay.userId)
              (fun u => { u with isPaid := true }) db.users,
            payments := updateFirst (fun q => q.id == payId)
              (fun q => { q with
                status := PayStatus.completed, verifiedBy := some adminId,
                verifiedAt := some now, verificationNotes := notes })
              db.payments }) := by
      unfold verifyPayment
      rw [hp, hparse]
      rfl
    rw [hres]
    refine ⟨rfl, ?_, ?_⟩
    · unfold findPayment
      unfold findPayment at hp
      rw [show ((Outcome.success, { db with
            users := updateFirst (fun u => u.id == pay.userId)
              (fun u => { u with isPaid := true }) db.users,
            payments := updateFirst (fun q => q.id == payId)
              (fun q => { q with
                status := PayStatus.completed, verifiedBy := some adminId,
                verifiedAt := some now, verificationNotes := notes })
              db.payments }) : Outcome × Db).2.payments =
          updateFirst (fun q => q.id == payId)
              (fun q => { q with
                status := PayStatus.completed, verifiedBy := some adminId,
                verifiedAt := some now, verificationNotes := notes })
              db.payments from rfl]
      rw [find?_updateFirst _ _ (hid PayStatus.completed) db.payments, hp]
      rfl
    · intro u hu
      unfold findUser
      unfold findUser at hu
      rw [show ((Outcome.success, { db with
            users := updateFirst (fun u => u.id == pay.userId)
              (fun u => { u with isPaid := true }) db.users,
            payments := updateFirst (fun q => q.id == payId)
              (fun q => { q with
                status := PayStatus.completed, verifiedBy := some adminId,
                verifiedAt := some now, verificationNotes := notes })
              db.payments }) : Outcome × Db).2.users =
          updateFirst (fun u => u.id == pay.userId)
              (fun u => { u with isPaid := true }) db.users from rfl]
      rw [find?_updateFirst _ _ huid db.users, hu]
      rfl
  · intro hs
    subst hs
    have hparse : parseVerifyStatus "failed" = some PayStatus.failed := by
      decide
    have hres : verifyPayment adminId now payId "failed" notes db =
        (Outcome.success,
          { db with
            payments := updateFirst (fun q => q.id == payId)
              (fun q => { q with
                status := PayStatus.failed, verifiedBy := some adminId,
                verifiedAt := some now, verificationNotes := notes })
              db.payments }) := by
      unfold verifyPayment
      rw [hp, hparse]
      rfl
    rw [hres]
    refine ⟨rfl, ?_, rfl⟩
    unfold findPayment
    unfold findPayment at hp
    rw [show ((Outcome.success, { db with
          payments := updateFirst (fun q => q.id == payId)
            (fun q => { q with
              status := PayStatus.failed, verifiedBy := some adminId,
              verifiedAt := some now, verificationNotes := notes })
            db.payments }) : Outcome × Db).2.payments =
        updateFirst (fun q => q.id == payId)
            (fun q => { q with
              status := PayStatus.failed, verifiedBy := some adminId,
              verifiedAt := some now, verificationNotes := notes })
            db.payments from rfl]
    rw [find?_updateFirst _ _ (hid PayStatus.failed) db.payments, hp]
    rfl
  · intro hs
    subst hs
    have hparse : parseVerifyStatus "cancelled" = some PayStatus.cancelled := by
      decide
    have hres : verifyPayment adminId now payId "cancelled" notes db =
        (Outcome.success,
          { db with
            payments := updateFirst (fun q => q.id == payId)
              (fun q => { q with
                status := PayStatus.cancelled, verifiedBy := some adminId,
                verifiedAt := some now, verificationNotes := notes })
              db.payments }) := by
      unfold verifyPayment
      rw [hp, hparse]
      rfl
    rw [hres]
    refine ⟨rfl, ?_, rfl⟩
    unfold findPayment
    unfold findPayment at hp
    rw [show ((Outcome.success, { db with
          payments := updateFirst (fun q => q.id == payId)
            (fun q => { q with
              status := PayStatus.cancelled, verifiedBy := some adminId,
              verifiedAt := some now, verificationNotes := notes })
            db.payments }) : Outcome × Db).2.payments =
        updateFirst (fun q => q.id == payId)
            (fun q => { q with
              status := PayStatus.cancelled, verifiedBy := some adminId,
              verifiedAt := some now, verificationNotes := notes })
            db.payments from rfl]
    rw [find?_updateFirst _ _ (hid PayStatus.cancelled) db.payments, hp]
    rfl

/-- Witness for C7: verifying the sample pending payment as completed
answers success. -/
theorem verifyPayment_claim_witness :
    (verifyPayment 7 50 2 "completed" none payDb).1 = Outcome.success :=
  ((verifyPayment_claim 7 50 2 "completed" none payDb pendingPayment
    (by decide)).2.1 rfl).1

/-- Counterexample to C6 as stated: the verification route never
checks that the payment is still pending, so a payment already in the
terminal state `completed` is moved to `failed` by
`verifyPayment(_, "failed", _)`, and the route even reports success. -/
theorem payment_terminal_counterexample :
    (findPayment 3 payDb).map (fun q => q.status) = some PayStatus.completed ∧
    (verifyPayment 7 50 3 "failed" none payDb).1 = Outcome.success ∧
    (findPayment 3 (verifyPayment 7 50 3 "failed" none payDb).2).map
      (fun q => q.status) = some PayStatus.failed := by
  decide

/-- C6 as amended.  Transitions out of `pending` remain one-way in the
sense that no operation ever moves a payment back to `pending`
(every payment of the store after `verifyPayment` is either an
untouched original or carries a non-pending status), and
`cancelPayment` only ever transitions a payment that was `pending`,
turning it into `cancelled`; `verifyPayment`, however, may move a
payment that is already in a terminal state to another terminal
state. -/
theorem payment_one_way (adminId now payId uid : Nat) (s : String)
    (notes : Option String) (db : Db) :
    (∀ q ∈ (verifyPayment adminId now payId s notes db).2.payments,
        q ∈ db.payments ∨ ¬ q.status = PayStatus.pending) ∧
    (∀ q ∈ (cancelPayment uid payId db).2.payments,
        q ∈ db.payments ∨
          ∃ q0, q0 ∈ db.payments ∧ q0.status = PayStatus.pending ∧
            q = { q0 with status := PayStatus.cancelled }) := by
  constructor
  · intro q hq
    unfold verifyPayment at hq
    cases hfp : findPayment payId db with
    | none =>
        rw [hfp] at hq
        exact Or.inl hq
    | some pay =>
        rw [hfp] at hq
        cases hps : parseVerifyStatus s with
        | none =>
            rw [hps] at hq
            exact Or.inl hq
        | some st =>
            rw [hps] at hq
            have hq2 : q ∈ updateFirst (fun x => x.id == payId)
                (fun x => { x with
                  status := st, verifiedBy := some adminId,
                  verifiedAt := some now, verificationNotes := notes })
                db.payments := hq
            rcases mem_updateFirst hq2 with h | ⟨x, hx, hpx, hqx⟩
            · exact Or.inl h
            · refine Or.inr ?_
              rw [hqx]
              exact parseVerifyStatus_ne_pending s st hps
  · intro q hq
    unfold cancelPayment at hq
    cases hfp : db.payments.find? (fun x =>
        x.id == payId && x.userId == uid && x.status == PayStatus.pending) with
    | none =>
        rw [hfp] at hq
        exact Or.inl hq
    | some pay =>
        rw [hfp] at hq
        have hq2 : q ∈ updateFirst (fun x =>
            x.id == payId && x.userId == uid && x.status == PayStatus.pending)
            (fun x => { x with status := PayStatus.cancelled })
            db.payments := hq
        rcases mem_updateFirst hq2 with h | ⟨x, hx, hpx, hqx⟩
        · exact Or.inl h
        · refine Or.inr ⟨x, hx, ?_, hqx⟩
          simp only [Bool.and_eq_true, beq_iff_eq] at hpx
          exact hpx.2

/-- Witness for the amended C6: after verifying the sample completed
payment as failed, the resulting document indeed has a non-pending
status (right disjunct of the conclusion at a concrete store). -/
theorem payment_one_way_witness :
    ({ termPayment with
       status := PayStatus.failed, verifiedBy := some 7,
       verifiedAt := some 50, verificationNotes := none } : Payment)
        ∈ payDb.payments ∨
    ¬ ({ termPayment with
         status := PayStatus.failed, verifiedBy := some 7,
         verifiedAt := some 50, verificationNotes := none } : Payment).status
        = PayStatus.pending :=
  (payment_one_way 7 50 3 0 "failed" none payDb).1
    { termPayment with
      status := PayStatus.failed, verifiedBy := some 7,
      verifiedAt := some 50, verificationNotes := none }
    (by decide)

/-- Counterexample to C8 as stated: setting the primary photo to an
identifier that is in no photo of the collection does not fail with a
not-found outcome — the route responds with success — and it does not
even leave the profile unchanged: the previously primary photo has its
flag cleared, so the collection ends with zero primaries. -/
theorem setPrimary_missing_counterexample :
    (setPrimaryPhoto 2 photoProfile).1 = Outcome.success ∧
    ¬ (setPrimaryPhoto 2 photoProfile).1 = Outcome.notFound ∧
    (setPrimaryPhoto 2 photoProfile).2.photos.countP
      (fun ph => ph.isPrimary) = 0 ∧
    ¬ (setPrimaryPhoto 2 photoProfile).2 = photoProfile := by
  decide

/-- C8 as amended.  `setPrimaryPhoto` always responds with success;
when the identifier is absent from the collection it clears
`isPrimary` on every photo, leaving zero primaries; when the
identifier is present, all other photos are cleared first and the
target becomes the unique primary. -/
theorem setPrimary_amended (photoId : Nat) (p : Profile) :
    (setPrimaryPhoto photoId p).1 = Outcome.success ∧
    (p.photos.any (fun ph => ph.id == photoId) = false →
        (setPrimaryPhoto photoId p).2.photos.countP
          (fun ph => ph.isPrimary) = 0) ∧
    (p.photos.any (fun ph => ph.id == photoId) = true →
        (setPrimaryPhoto photoId p).2.photos.countP
          (fun ph => ph.isPrimary) = 1 ∧
        ∀ ph ∈ (setPrimaryPhoto photoId p).2.photos,
          ph.isPrimary = true → ph.id = photoId) := by
  have hany : (p.photos.map (fun ph => { ph with isPrimary := false })).any
      (fun ph => ph.id == photoId) = p.photos.any (fun ph => ph.id == photoId) := by
    rw [List.any_map]
    rfl
  refine ⟨rfl, ?_, ?_⟩
  · intro h
    have habs : setFirstPrimary photoId
        (p.photos.map (fun ph => { ph with isPrimary := false })) =
        p.photos.map (fun ph => { ph with isPrimary := false }) :=
      setFirstPrimary_of_absent photoId _ (by rw [hany]; exact h)
    show (setFirstPrimary photoId
        (p.photos.map (fun ph => { ph with isPrimary := false }))).countP
      (fun ph => ph.isPrimary) = 0
    rw [habs]
    exact countP_clearPrimary p.photos
  · intro h
    have hpres := setFirstPrimary_of_present photoId
      (p.photos.map (fun ph => { ph with isPrimary := false }))
      (by rw [hany]; exact h) (countP_clearPrimary p.photos)
    exact ⟨hpres.1, hpres.2⟩

/-- Witness for the amended C8: setting the present identifier 1 on
the sample single-photo profile yields exactly one primary. -/
theorem setPrimary_amended_witness :
    (setPrimaryPhoto 1 photoProfile).2.photos.countP
      (fun ph => ph.isPrimary) = 1 :=
  ((setPrimary_amended 1 photoProfile).2.2 (by decide)).1

theorem browseFilter_eq_true_iff (q : BrowseQuery) (p : Profile) :
    browseFilter q p = true ↔
      (p.published = true ∧ p.status = PStatus.approved ∧
       (∀ g, q.gender = some g → p.personalInfo.gender = g) ∧
       (∀ c, q.city = some c → cityMatch c p.personalInfo.location.city = true) ∧
       (∀ a, q.minAge = some a → a ≤ p.personalInfo.age) ∧
       (∀ b, q.maxAge = some b → p.personalInfo.age ≤ b)) := by
  rcases q with ⟨g, c, mi, ma⟩
  cases g <;> cases c <;> cases mi <;> cases ma <;>
    simp [browseFilter, and_assoc, beq_iff_eq]

/-- A store with one publicly visible profile, for the browse
witness. -/
def browseDb : Db :=
  { users := [sampleUser], profiles := [approvedProfile], payments := [] }

/-- A browse query with gender and age filters matching
`approvedProfile`. -/
def browseQueryEx : BrowseQuery :=
  { gender := some "female", city := none,
    minAge := some 20, maxAge := some 30 }

/-- C9.  The public browse query returns exactly the profiles with
`published = true` and status `approved` matching every supplied
filter — gender by equality, city by case-insensitive substring, age
within the inclusive bounds — sorted newest-created-first; each
12-element page is drawn from that sorted result. -/
theorem browse_claim (q : BrowseQuery) (db : Db) :
    (∀ p, p ∈ browseProfiles q db ↔
        (p ∈ db.profiles ∧ p.published = true ∧ p.status = PStatus.approved ∧
         (∀ g, q.gender = some g → p.personalInfo.gender = g) ∧
         (∀ c, q.city = some c → cityMatch c p.personalInfo.location.city = true) ∧
         (∀ a, q.minAge = some a → a ≤ p.personalInfo.age) ∧
         (∀ b, q.maxAge = some b → p.personalInfo.age ≤ b))) ∧
    (browseProfiles q db).Pairwise (fun a b => b.createdAt ≤ a.createdAt) ∧
    (∀ page p, p ∈ browsePage page q db → p ∈ browseProfiles q db) := by
  refine ⟨?_, ?_, ?_⟩
  · intro p
    unfold browseProfiles
    rw [List.mem_mergeSort, List.mem_filter, browseFilter_eq_true_iff]
  · have htrans : ∀ a b c : Profile,
        (fun x y : Profile => decide (y.createdAt ≤ x.createdAt)) a b = true →
        (fun x y : Profile => decide (y.createdAt ≤ x.createdAt)) b c = true →
        (fun x y : Profile => decide (y.createdAt ≤ x.createdAt)) a c = true := by
      intro a b c hab hbc
      simp only [decide_eq_true_eq] at hab hbc ⊢
      omega
    have htotal : ∀ a b : Profile,
        ((fun x y : Profile => decide (y.createdAt ≤ x.createdAt)) a b ||
         (fun x y : Profile => decide (y.createdAt ≤ x.createdAt)) b a) = true := by
      intro a b
      simp only [Bool.or_eq_true, decide_eq_true_eq]
      omega
    have h := @List.sorted_mergeSort Profile
      (fun x y : Profile => decide (y.createdAt ≤ x.createdAt))
      htrans htotal (db.profiles.filter (browseFilter q))
    exact h.imp (fun hab => by simpa using hab)
  · intro page p hp
    unfold browsePage at hp
    exact (List.drop_sublist _ _).subset ((List.take_sublist _ _).subset hp)

/-- Witness for C9: the sample approved, published profile is listed
by the fully populated browse query, hence satisfies all filters. -/
theorem browse_claim_witness :
    approvedProfile ∈ browseDb.profiles :=
  (((browse_claim browseQueryEx browseDb).1 approvedProfile).mp
    (by
      unfold browseProfiles
      rw [List.mem_mergeSort]
      decide)).1

end HijabCollection
